import Mathlib

/-!
Verification development for the `cellmaps_coembedding` package
(`cellmaps_coembedding/runner.py` and
`cellmaps_coembedding/cellmaps_coembeddingcmd.py`).

The Python code is shallowly embedded as follows.

* Python exceptions are modelled by the `Except PyErr` monad; each `PyErr`
  constructor corresponds to one concrete raise site (or built-in runtime
  error) of the source.
* The file system is modelled as the list of existing paths; `os.path.join`
  on two non-`None` strings is string concatenation with a `/` separator,
  and `os.path.join(None, _)` raises `TypeError`.
* Optional Python arguments are `Option` values; Python truthiness of a
  string (`None` and `''` are falsy) and of an optional list (`None` and
  `[]` are falsy) is made explicit.
* A parsed embedding-table row (`_get_embeddings` output after the header
  is discarded, with the numeric components converted by `float`) is a pair
  of an identifier and a rational vector.  The identifier type is a
  parameter with a linear order; the source uses Python strings with their
  lexicographic order.
* Python floats are modelled as rationals, `random.random()` draws and the
  trained MUSE vectors are parameters rather than fixed values.
-/

/-- Errors raised by the modelled code.  `notBothDirsAndFiles` is the
`CellmapsCoEmbeddingError` of runner.py line 61, `embeddingFileNotFound`
the one of line 51, `namesCountMismatch` the one of line 75;
`typeError`, `nameError` and `attributeError` model the Python built-in
exceptions of the same names. -/
inductive PyErr where
  | notBothDirsAndFiles
  | embeddingFileNotFound (dir : String)
  | namesCountMismatch
  | typeError
  | nameError (msg : String)
  | attributeError (msg : String)
  deriving DecidableEq, Repr

/-- Python truthiness of an optional string: `None` and `''` are falsy. -/
def truthyStr : Option String → Bool
  | none => false
  | some s => !(s == "")

/-- Python truthiness of an optional list: `None` and `[]` are falsy. -/
def truthyList {α : Type} : Option (List α) → Bool
  | none => false
  | some l => !l.isEmpty

/-- Conventional PPI embedding filename (`cellmaps_utils.constants.PPI_EMBEDDING_FILE`,
named in the command-line help text of cellmaps_coembeddingcmd.py). -/
def PPI_EMBEDDING_FILE : String := "ppi_emd.tsv"

/-- Conventional image embedding filename (`cellmaps_utils.constants.IMAGE_EMBEDDING_FILE`). -/
def IMAGE_EMBEDDING_FILE : String := "image_emd.tsv"

/-- Output co-embedding table filename (`cellmaps_utils.constants.CO_EMBEDDING_FILE`);
the particular name plays no role in any claim. -/
def CO_EMBEDDING_FILE : String := "coembedding_emd.tsv"

/-- Model of `EmbeddingGenerator._get_embedding_file_from_dirs` (runner.py
lines 42-51): try the PPI filename then the image filename inside the
directory, raising when neither exists.  `fs` is the set of existing paths.
A `None` directory makes `os.path.join` raise `TypeError`. -/
def get_embedding_file_from_dirs (fs : List String) (embedding_dir : Option String) :
    Except PyErr String :=
  match embedding_dir with
  | none => Except.error PyErr.typeError
  | some d =>
    let path_ppi := d ++ "/" ++ PPI_EMBEDDING_FILE
    if path_ppi ∈ fs then Except.ok path_ppi
    else
      let path_image := d ++ "/" ++ IMAGE_EMBEDDING_FILE
      if path_image ∈ fs then Except.ok path_image
      else Except.error (PyErr.embeddingFileNotFound d)

/-- Default names generated by runner.py line 73:
`['emd_{}'.format(x) for x in np.arange(len(embedding_files))]`. -/
def emd_names (n : ℕ) : List String := (List.range n).map (fun x => "emd_" ++ toString x)

/-- Model of runner.py lines 74-77: `len(names) != len(embeddings)` raises
the mismatch error; `len(None)` raises `TypeError`. -/
def names_count_check (embeddings : Option (List String)) (names : List String) :
    Except PyErr (List String × List String) :=
  match embeddings with
  | none => Except.error PyErr.typeError
  | some es =>
    if names.length ≠ es.length then Except.error PyErr.namesCountMismatch
    else Except.ok (es, names)

/-- Model of runner.py lines 72-73: when `names` is `None` it is replaced by
`emd_{i}` defaults computed from `len(embedding_files)` (raising `TypeError`
when `embedding_files` is `None`). -/
def resolve_default_names (names embedding_files : Option (List String)) :
    Except PyErr (List String) :=
  match names with
  | some ns => Except.ok ns
  | none =>
    match embedding_files with
    | none => Except.error PyErr.typeError
    | some l => Except.ok (emd_names l.length)

/-- Model of `EmbeddingGenerator._get_embedding_files_and_names` (runner.py
lines 54-77).  On the directory branch the local `names` list is set to
`['PPI', 'image']` only when `embedding_names is None`; otherwise it stays
the empty list initialised at line 57. -/
def get_embedding_files_and_names (fs : List String) (embedding_files : Option (List String))
    (ppi_embeddingdir image_embeddingdir : Option String)
    (embedding_names : Option (List String)) : Except PyErr (List String × List String) :=
  if truthyStr ppi_embeddingdir || truthyStr image_embeddingdir then
    if truthyList embedding_files then Except.error PyErr.notBothDirsAndFiles
    else
      match get_embedding_file_from_dirs fs ppi_embeddingdir with
      | Except.error e => Except.error e
      | Except.ok ppi_embedding_file =>
        match get_embedding_file_from_dirs fs image_embeddingdir with
        | Except.error e => Except.error e
        | Except.ok image_embedding_file =>
          match resolve_default_names
              (if embedding_names.isNone then some ["PPI", "image"] else some [])
              embedding_files with
          | Except.error e => Except.error e
          | Except.ok names =>
            names_count_check (some [ppi_embedding_file, image_embedding_file]) names
  else
    match resolve_default_names embedding_names embedding_files with
    | Except.error e => Except.error e
    | Except.ok names => names_count_check embedding_files names

/-- State stored by a successfully constructed `EmbeddingGenerator`
(runner.py lines 30-40). -/
structure EmbeddingGenerator where
  dimensions : ℕ
  embedding_files : List String
  embedding_names : List String
  deriving DecidableEq, Repr

/-- Model of `EmbeddingGenerator.__init__` (runner.py lines 30-40), shared by
`MuseCoEmbeddingGenerator` and `FakeCoEmbeddingGenerator`, which both forward
their arguments to it unchanged. -/
def mk_embedding_generator (fs : List String) (dimensions : ℕ)
    (ppi_embeddingdir image_embeddingdir : Option String)
    (embedding_files embedding_names : Option (List String)) :
    Except PyErr EmbeddingGenerator :=
  match get_embedding_files_and_names fs embedding_files ppi_embeddingdir image_embeddingdir
      embedding_names with
  | Except.error e => Except.error e
  | Except.ok fn => Except.ok ⟨dimensions, fn.1, fn.2⟩

/-- Files the co-embedding pipeline creates for the output table: generator
construction happens before `CellmapsCoEmbedder.run` is invoked
(cellmaps_coembeddingcmd.py lines 143-178), and `run` (runner.py line 498)
is the only place the output table is opened for writing, so a failed
construction creates no output table file. -/
def pipeline_written_files (outdir : String) (g : Except PyErr EmbeddingGenerator) :
    List String :=
  match g with
  | Except.error _ => []
  | Except.ok _ => [outdir ++ "/" ++ CO_EMBEDDING_FILE]

/-- Model of `FakeCoEmbeddingGenerator.get_next_embedding` (runner.py lines
240-262).  Its first statement,
`modality_embeddings = [self._get_embeddings(x) in self._embedding_files]`,
evaluates the free variable `x`, which is bound nowhere in the function, so
the generator raises `NameError` before yielding any row.  (Were that line
repaired to a comprehension, line 252 would still raise `AttributeError`:
it calls `self._get_set_of_embedding_names`, a method that does not exist;
the base-class method is named `_get_set_of_gene_names`.) -/
def fake_get_next_embedding (_g : EmbeddingGenerator)
    (_read : String → List (String × List ℚ)) : Except PyErr (List (String × List ℚ)) :=
  match (Except.error (PyErr.nameError "name x is not defined") :
      Except PyErr (List (List (String × List ℚ)))) with
  | Except.error e => Except.error e
  | Except.ok _modality_embeddings =>
    Except.error (PyErr.attributeError "_get_set_of_embedding_names")

/-- A parsed embedding-table row: identifier plus numeric vector
(`_get_embeddings` output row after `float` conversion of `xi[1:]`). -/
abbrev Row (ident : Type) : Type := ident × List ℚ

/-- Ordering used by `e.sort(key=lambda x: x[0])` (runner.py line 182):
compare rows by their identifier. -/
def rowLE {ident : Type} [LinearOrder ident] (a b : Row ident) : Prop := a.1 ≤ b.1

instance {ident : Type} [LinearOrder ident] : DecidableRel (@rowLE ident _) :=
  fun a b => inferInstanceAs (Decidable (a.1 ≤ b.1))

instance {ident : Type} [LinearOrder ident] : IsTrans (Row ident) rowLE :=
  ⟨fun _ _ _ h1 h2 => le_trans h1 h2⟩

instance {ident : Type} [LinearOrder ident] : IsTotal (Row ident) rowLE :=
  ⟨fun a b => le_total a.1 b.1⟩

/-- Model of `e.sort(key=lambda x: x[0])` (runner.py line 182): a stable sort
of the rows by identifier. -/
def sort_rows {ident : Type} [LinearOrder ident] (e : List (Row ident)) : List (Row ident) :=
  List.insertionSort rowLE e

/-- Model of `EmbeddingGenerator._get_set_of_gene_names` (runner.py lines
83-93): the set of the identifiers (`entry[0]`) of the rows. -/
def get_set_of_gene_names {ident : Type} [DecidableEq ident] (e : List (Row ident)) :
    Finset ident := (e.map Prod.fst).toFinset

/-- The per-modality tables after the in-place sort of runner.py lines 180-183. -/
def muse_sorted {ident : Type} [LinearOrder ident] (tables : List (List (Row ident))) :
    List (List (Row ident)) := tables.map sort_rows

/-- Model of runner.py lines 185-186: the aligned identifier set
`embedding_name_sets[0].intersection(embedding_name_sets[1])` — note that
only the first two modalities take part. -/
def muse_intersection_name_set {ident : Type} [LinearOrder ident]
    (tables : List (List (Row ident))) : Finset ident :=
  get_set_of_gene_names ((muse_sorted tables).getD 0 []) ∩
    get_set_of_gene_names ((muse_sorted tables).getD 1 [])

/-- Model of runner.py line 192: the canonical identifier list
`[x[0] for x in embeddings[0] if x[0] in intersection_name_set]`
(first modality's sorted order filtered to the intersection). -/
def muse_name_index {ident : Type} [LinearOrder ident] (tables : List (List (Row ident))) :
    List ident :=
  (((muse_sorted tables).getD 0 []).map Prod.fst).filter
    (fun x => x ∈ muse_intersection_name_set tables)

/-- Model of runner.py lines 194-196: per modality, the float matrix of the
vectors of the rows whose identifier lies in the intersection, in that
modality's sorted order. -/
def muse_embedding_data {ident : Type} [LinearOrder ident] (tables : List (List (Row ident))) :
    List (List (List ℚ)) :=
  (muse_sorted tables).map
    (fun e => (e.filter (fun xi => xi.1 ∈ muse_intersection_name_set tables)).map Prod.snd)

/-- Model of runner.py lines 217-220: the rows yielded by
`MuseCoEmbeddingGenerator.get_next_embedding`, pairing
`name_index[index]` with `res_embedings[index]` for each index of the
fitter result.  `muse_fit_predict` itself lives in the
`cellmaps_coembedding.muse_sc` module, which is not part of the source
tree, so its result `res_embedings` is a parameter here; theorems state
the contract the spec gives it (one latent vector of the requested
dimension per entity of the canonical order) as hypotheses. -/
def muse_emitted_rows {ident : Type} [Inhabited ident] (name_index : List ident)
    (res_embedings : List (List ℚ)) : List (Row ident) :=
  (List.range res_embedings.length).map
    (fun index => (name_index.getD index default, res_embedings.getD index []))

/-- Model of runner.py lines 200-203: the held-out-identifiers side file
(`{resultsdir}_test_genes.txt`).  `test_subset` stands for the value of
`random.sample(list(np.arange(len(name_index))), int(jackknife_percent * len(name_index)))`;
theorems state the `random.sample` contract (result length equals the
requested size, entries are indices into `name_index`) as hypotheses.  The
file is written only when `jackknife_percent > 0`, and then lists
`np.array(name_index)[test_subset]`. -/
def muse_test_genes_file {ident : Type} [Inhabited ident] (name_index : List ident)
    (jackknife_percent : ℚ) (test_subset : List ℕ) : Option (List ident) :=
  if 0 < jackknife_percent then
    some (test_subset.map (fun i => name_index.getD i default))
  else none

/-- Model of runner.py lines 500-502: the header row written by
`CellmapsCoEmbedder.run` is an empty cell followed by
`[x for x in range(1, dimensions)]`. -/
def header_line (dimensions : ℕ) : List String :=
  "" :: (List.range' 1 (dimensions - 1)).map (fun x => toString x)

/-- Modelled from the spec: the identifier-set intersection across ALL
modalities of a run ("the set intersection of each modality's own
identifier set", spec section 8).  This is the spec's wording, used to
compare with `muse_intersection_name_set`, the set the code computes. -/
def spec_all_modalities_intersection {ident : Type} [DecidableEq ident]
    (tables : List (List (Row ident))) : Finset ident :=
  match tables with
  | [] => ∅
  | t :: ts => ts.foldl (fun acc e => acc ∩ get_set_of_gene_names e) (get_set_of_gene_names t)

/-- Abstract outcomes of the steps `CellmapsCoEmbedder.run` performs inside
its `try` block (runner.py lines 479-510): the setup steps before the write
loop, the generator iteration (rows yielded, then optionally an exception
partway through), and the registration steps after the write loop. -/
structure RunEnv where
  setup_result : Except PyErr Unit
  generator_rows : List (Row String)
  generator_failure : Option PyErr
  register_result : Except PyErr Unit

/-- The `try`-block body of `CellmapsCoEmbedder.run`: setup, then the write
loop (which re-raises any exception of the generator), then registration. -/
def run_body (env : RunEnv) : Except PyErr Unit :=
  match env.setup_result with
  | Except.error e => Except.error e
  | Except.ok _ =>
    match env.generator_failure with
    | some e => Except.error e
    | none => env.register_result

/-- Observable outcome of `CellmapsCoEmbedder.run`: the statuses written by
`logutils.write_task_finish_json`, in order, and the returned exit code or
propagated exception. -/
structure RunOutcome where
  finish_statuses : List ℤ
  outcome : Except PyErr ℤ

/-- Model of `CellmapsCoEmbedder.run` (runner.py lines 470-519):
`exitcode = 99`; the `try` block runs and, only if every step completes,
sets `exitcode = 0`; the `finally` block writes the task-finish record with
the current `exitcode` exactly once on every path; an exception from the
`try` block propagates to the caller after the `finally` block. -/
def cellmaps_run (env : RunEnv) : RunOutcome :=
  let try_result := run_body env
  let exitcode : ℤ := match try_result with
    | Except.ok _ => 0
    | Except.error _ => 99
  { finish_statuses := [exitcode]
    outcome := match try_result with
      | Except.ok _ => Except.ok exitcode
      | Except.error e => Except.error e }

/-- Model of `cellmaps_coembeddingcmd.main` (lines 141-183): it returns
`run()`'s exit code, and its `except Exception` handler turns any raised
exception into the process-level return value `2`. -/
def cmd_main (env : RunEnv) : ℤ :=
  match (cellmaps_run env).outcome with
  | Except.ok code => code
  | Except.error _ => 2

section Helpers

variable {ident : Type} [LinearOrder ident]

lemma sort_rows_perm (e : List (Row ident)) : (sort_rows e).Perm e :=
  List.perm_insertionSort rowLE e

lemma keys_sort_rows_sorted (e : List (Row ident)) :
    ((sort_rows e).map Prod.fst).Sorted (· ≤ ·) :=
  List.Pairwise.map Prod.fst (fun _ _ hab => hab) (List.sorted_insertionSort rowLE e)

lemma keys_perm (e : List (Row ident)) :
    ((sort_rows e).map Prod.fst).Perm (e.map Prod.fst) := (sort_rows_perm e).map Prod.fst

lemma keys_sort_rows_nodup (e : List (Row ident)) (h : (e.map Prod.fst).Nodup) :
    ((sort_rows e).map Prod.fst).Nodup := ((keys_perm e).nodup_iff).mpr h

lemma toFinset_perm {α : Type} [DecidableEq α] {l₁ l₂ : List α} (h : l₁.Perm l₂) :
    l₁.toFinset = l₂.toFinset := by
  ext a
  simp [List.mem_toFinset, h.mem_iff]

lemma get_set_sort_rows (e : List (Row ident)) :
    get_set_of_gene_names (sort_rows e) = get_set_of_gene_names e :=
  toFinset_perm (keys_perm e)

lemma map_fst_filter_mem (e : List (Row ident)) (s : Finset ident) :
    ((e.filter (fun xi => xi.1 ∈ s)).map Prod.fst)
      = (e.map Prod.fst).filter (fun x => x ∈ s) := by
  induction e with
  | nil => rfl
  | cons a t ih =>
    by_cases h : a.1 ∈ s
    · simp [List.filter_cons, h, ih]
    · simp [List.filter_cons, h, ih]

lemma eq_sorted_nodup {l₁ l₂ : List ident} (s1 : l₁.Sorted (· ≤ ·)) (s2 : l₂.Sorted (· ≤ ·))
    (n1 : l₁.Nodup) (n2 : l₂.Nodup) (hm : ∀ a, a ∈ l₁ ↔ a ∈ l₂) : l₁ = l₂ :=
  List.eq_of_perm_of_sorted ((List.perm_ext_iff_of_nodup n1 n2).mpr hm) s1 s2

lemma filtered_keys_canonical (t : List (Row ident)) (s : Finset ident)
    (hnd : (t.map Prod.fst).Nodup) (hsub : ∀ x ∈ s, x ∈ t.map Prod.fst) :
    ((sort_rows t).filter (fun xi => xi.1 ∈ s)).map Prod.fst = s.sort (· ≤ ·) := by
  rw [map_fst_filter_mem]
  apply eq_sorted_nodup
  · exact (keys_sort_rows_sorted t).filter _
  · exact Finset.sort_sorted _ s
  · exact (keys_sort_rows_nodup t hnd).filter _
  · exact Finset.sort_nodup _ s
  · intro a
    simp only [List.mem_filter, Finset.mem_sort, decide_eq_true_eq]
    constructor
    · rintro ⟨-, h⟩
      exact h
    · intro h
      exact ⟨(keys_perm t).mem_iff.mpr (hsub a h), h⟩

lemma inter_subset_keys_zero (t0 t1 : List (Row ident)) (ts : List (List (Row ident))) :
    ∀ x ∈ muse_intersection_name_set (t0 :: t1 :: ts), x ∈ t0.map Prod.fst := by
  intro x hx
  have h1 : x ∈ get_set_of_gene_names (sort_rows t0) := (Finset.mem_inter.mp hx).1
  exact (keys_perm t0).mem_iff.mp (List.mem_toFinset.mp h1)

lemma inter_subset_keys_one (t0 t1 : List (Row ident)) (ts : List (List (Row ident))) :
    ∀ x ∈ muse_intersection_name_set (t0 :: t1 :: ts), x ∈ t1.map Prod.fst := by
  intro x hx
  have h1 : x ∈ get_set_of_gene_names (sort_rows t1) := (Finset.mem_inter.mp hx).2
  exact (keys_perm t1).mem_iff.mp (List.mem_toFinset.mp h1)

lemma muse_name_index_eq (t0 t1 : List (Row ident)) (ts : List (List (Row ident)))
    (h0 : (t0.map Prod.fst).Nodup) :
    muse_name_index (t0 :: t1 :: ts)
      = (muse_intersection_name_set (t0 :: t1 :: ts)).sort (· ≤ ·) := by
  show ((sort_rows t0).map Prod.fst).filter
      (fun x => x ∈ muse_intersection_name_set (t0 :: t1 :: ts)) = _
  rw [← map_fst_filter_mem]
  exact filtered_keys_canonical t0 _ h0 (inter_subset_keys_zero t0 t1 ts)

lemma filtered_keys_one (t0 t1 : List (Row ident)) (ts : List (List (Row ident)))
    (h1 : (t1.map Prod.fst).Nodup) :
    ((sort_rows t1).filter
        (fun xi => xi.1 ∈ muse_intersection_name_set (t0 :: t1 :: ts))).map Prod.fst
      = (muse_intersection_name_set (t0 :: t1 :: ts)).sort (· ≤ ·) :=
  filtered_keys_canonical t1 _ h1 (inter_subset_keys_one t0 t1 ts)

lemma muse_name_index_nodup (t0 t1 : List (Row ident)) (ts : List (List (Row ident)))
    (h0 : (t0.map Prod.fst).Nodup) : (muse_name_index (t0 :: t1 :: ts)).Nodup := by
  rw [muse_name_index_eq t0 t1 ts h0]
  exact Finset.sort_nodup _ _

lemma muse_name_index_toFinset (t0 t1 : List (Row ident)) (ts : List (List (Row ident)))
    (h0 : (t0.map Prod.fst).Nodup) :
    (muse_name_index (t0 :: t1 :: ts)).toFinset = muse_intersection_name_set (t0 :: t1 :: ts) := by
  rw [muse_name_index_eq t0 t1 ts h0]
  exact Finset.sort_toFinset _ _

lemma muse_name_index_length (t0 t1 : List (Row ident)) (ts : List (List (Row ident)))
    (h0 : (t0.map Prod.fst).Nodup) :
    (muse_name_index (t0 :: t1 :: ts)).length = (muse_intersection_name_set (t0 :: t1 :: ts)).card := by
  rw [muse_name_index_eq t0 t1 ts h0]
  exact Finset.length_sort _

lemma range_map_getD {α : Type} (l : List α) (d : α) :
    (List.range l.length).map (fun i => l.getD i d) = l := by
  apply List.ext_getElem
  · simp
  · intro n h1 h2
    simp [List.getD_eq_getElem?_getD, List.getElem?_eq_getElem h2]

lemma zip_map_fst_snd {α β : Type} (l : List (α × β)) :
    (l.map Prod.fst).zip (l.map Prod.snd) = l := by
  induction l with
  | nil => rfl
  | cons a t ih => simp [ih]

lemma getD_mem {α : Type} (l : List α) (i : ℕ) (d : α) (h : i < l.length) :
    l.getD i d ∈ l := by
  rw [List.getD_eq_getElem?_getD, List.getElem?_eq_getElem h]
  exact List.getElem_mem h

end Helpers

/-- C1 (amended): for a MUSE run over N ≥ 2 modality tables with
per-table-unique identifiers, the aligned identifier set the generator
computes is the set intersection of the FIRST TWO modalities' identifier
sets (for N = 2 this is the intersection of all N), and, for a fitter
result holding one vector per canonical identifier, the identifier column
of the emitted row sequence is exactly the canonical identifier list: it
has no duplicates and as a set is exactly the aligned identifier set. -/
theorem muse_identifier_column {ident : Type} [LinearOrder ident] [Inhabited ident]
    (t0 t1 : List (Row ident)) (rest : List (List (Row ident))) (res : List (List ℚ))
    (h0 : (t0.map Prod.fst).Nodup) (_h1 : (t1.map Prod.fst).Nodup)
    (hres : res.length = (muse_name_index (t0 :: t1 :: rest)).length) :
    muse_intersection_name_set (t0 :: t1 :: rest)
        = get_set_of_gene_names t0 ∩ get_set_of_gene_names t1 ∧
    (muse_emitted_rows (muse_name_index (t0 :: t1 :: rest)) res).map Prod.fst
        = muse_name_index (t0 :: t1 :: rest) ∧
    (muse_name_index (t0 :: t1 :: rest)).Nodup ∧
    (muse_name_index (t0 :: t1 :: rest)).toFinset
        = muse_intersection_name_set (t0 :: t1 :: rest) := by
  refine ⟨?_, ?_, muse_name_index_nodup t0 t1 rest h0, muse_name_index_toFinset t0 t1 rest h0⟩
  · show get_set_of_gene_names (sort_rows t0) ∩ get_set_of_gene_names (sort_rows t1) = _
    rw [get_set_sort_rows, get_set_sort_rows]
  · have h2 : (muse_emitted_rows (muse_name_index (t0 :: t1 :: rest)) res).map Prod.fst
        = (List.range res.length).map
            (fun i => (muse_name_index (t0 :: t1 :: rest)).getD i default) := by
      simp [muse_emitted_rows, List.map_map, Function.comp]
    rw [h2, hres, range_map_getD]

/-- Counterexample to C1 as stated: with three modality tables, each with
unique identifiers, the aligned identifier set the generator computes is
the intersection of the first two tables' identifier sets only, which
differs from the set intersection of all three modalities' identifier
sets. -/
theorem muse_identifier_column_cex :
    muse_intersection_name_set
        [[((1 : ℕ), ([] : List ℚ)), (2, [])], [(1, []), (2, [])], [(1, [])]]
      ≠ spec_all_modalities_intersection
        [[((1 : ℕ), ([] : List ℚ)), (2, [])], [(1, []), (2, [])], [(1, [])]] := by decide

/-- Witness for `muse_identifier_column` at two concrete tables. -/
theorem muse_identifier_column_witness :
    (([((1 : ℕ), ([1] : List ℚ)), (2, [2])].map Prod.fst).Nodup) ∧
    (([((2 : ℕ), ([3] : List ℚ)), (3, [4])].map Prod.fst).Nodup) ∧
    ([[(0 : ℚ)]].length
      = (muse_name_index [[((1 : ℕ), ([1] : List ℚ)), (2, [2])], [(2, [3]), (3, [4])]]).length) ∧
    (muse_intersection_name_set [[((1 : ℕ), ([1] : List ℚ)), (2, [2])], [(2, [3]), (3, [4])]]
        = get_set_of_gene_names [((1 : ℕ), ([1] : List ℚ)), (2, [2])]
            ∩ get_set_of_gene_names [((2 : ℕ), ([3] : List ℚ)), (3, [4])] ∧
      (muse_emitted_rows
          (muse_name_index [[((1 : ℕ), ([1] : List ℚ)), (2, [2])], [(2, [3]), (3, [4])]])
          [[(0 : ℚ)]]).map Prod.fst
        = muse_name_index [[((1 : ℕ), ([1] : List ℚ)), (2, [2])], [(2, [3]), (3, [4])]] ∧
      (muse_name_index [[((1 : ℕ), ([1] : List ℚ)), (2, [2])], [(2, [3]), (3, [4])]]).Nodup ∧
      (muse_name_index [[((1 : ℕ), ([1] : List ℚ)), (2, [2])], [(2, [3]), (3, [4])]]).toFinset
        = muse_intersection_name_set
            [[((1 : ℕ), ([1] : List ℚ)), (2, [2])], [(2, [3]), (3, [4])]]) :=
  ⟨by decide, by decide, by decide,
    muse_identifier_column [((1 : ℕ), ([1] : List ℚ)), (2, [2])] [(2, [3]), (3, [4])] []
      [[(0 : ℚ)]] (by decide) (by decide) (by decide)⟩

/-- C8 (amended): for a MUSE run over exactly two modality tables with
unique identifiers, each aligned matrix has the same number of rows as the
canonical identifier list, and pairing the canonical identifiers with a
modality's matrix rows positionally recovers rows of that modality's input
table (so row i of matrix m is the vector modality m associates with the
i-th canonical identifier).  For runs over more than two tables this
fails, because the intersection is computed from the first two modalities
only (see the counterexample). -/
theorem muse_aligned_matrices {ident : Type} [LinearOrder ident]
    (t0 t1 : List (Row ident))
    (h0 : (t0.map Prod.fst).Nodup) (h1 : (t1.map Prod.fst).Nodup) :
    (muse_embedding_data [t0, t1]).length = 2 ∧
    (∀ m, m < 2 →
      ((muse_embedding_data [t0, t1]).getD m []).length = (muse_name_index [t0, t1]).length ∧
      ∀ p ∈ (muse_name_index [t0, t1]).zip ((muse_embedding_data [t0, t1]).getD m []),
        p ∈ [t0, t1].getD m []) := by
  constructor
  · rfl
  · intro m hm
    interval_cases m
    · have hfr : (muse_embedding_data [t0, t1]).getD 0 []
          = ((sort_rows t0).filter
              (fun xi => xi.1 ∈ muse_intersection_name_set [t0, t1])).map Prod.snd := rfl
      have hkeys : ((sort_rows t0).filter
            (fun xi => xi.1 ∈ muse_intersection_name_set [t0, t1])).map Prod.fst
          = muse_name_index [t0, t1] := by
        rw [muse_name_index_eq t0 t1 [] h0]
        exact filtered_keys_canonical t0 _ h0 (inter_subset_keys_zero t0 t1 [])
      constructor
      · rw [hfr, ← hkeys]
        simp
      · intro p hp
        rw [hfr, ← hkeys, zip_map_fst_snd] at hp
        exact (sort_rows_perm t0).mem_iff.mp (List.mem_of_mem_filter hp)
    · have hfr : (muse_embedding_data [t0, t1]).getD 1 []
          = ((sort_rows t1).filter
              (fun xi => xi.1 ∈ muse_intersection_name_set [t0, t1])).map Prod.snd := rfl
      have hkeys : ((sort_rows t1).filter
            (fun xi => xi.1 ∈ muse_intersection_name_set [t0, t1])).map Prod.fst
          = muse_name_index [t0, t1] := by
        rw [muse_name_index_eq t0 t1 [] h0]
        exact filtered_keys_one t0 t1 [] h1
      constructor
      · rw [hfr, ← hkeys]
        simp
      · intro p hp
        rw [hfr, ← hkeys, zip_map_fst_snd] at hp
        exact (sort_rows_perm t1).mem_iff.mp (List.mem_of_mem_filter hp)

/-- Counterexample to C8 as stated: with three modality tables, each with
unique identifiers, the third aligned matrix does not have the same number
of rows as the canonical identifier list, because the intersection is
computed from the first two modalities only. -/
theorem muse_aligned_matrices_cex :
    ((muse_embedding_data
        [[((1 : ℕ), ([] : List ℚ)), (2, [])], [(1, []), (2, [])], [(1, [])]]).getD 2 []).length
      ≠ (muse_name_index
        [[((1 : ℕ), ([] : List ℚ)), (2, [])], [(1, []), (2, [])], [(1, [])]]).length := by decide

/-- Witness for `muse_aligned_matrices` at two concrete tables. -/
theorem muse_aligned_matrices_witness :
    (([((1 : ℕ), ([1] : List ℚ)), (2, [2])].map Prod.fst).Nodup) ∧
    (([((2 : ℕ), ([3] : List ℚ)), (3, [4])].map Prod.fst).Nodup) ∧
    ((muse_embedding_data
        [[((1 : ℕ), ([1] : List ℚ)), (2, [2])], [(2, [3]), (3, [4])]]).length = 2 ∧
      (∀ m, m < 2 →
        ((muse_embedding_data
            [[((1 : ℕ), ([1] : List ℚ)), (2, [2])], [(2, [3]), (3, [4])]]).getD m []).length
          = (muse_name_index
              [[((1 : ℕ), ([1] : List ℚ)), (2, [2])], [(2, [3]), (3, [4])]]).length ∧
        ∀ p ∈ (muse_name_index
              [[((1 : ℕ), ([1] : List ℚ)), (2, [2])], [(2, [3]), (3, [4])]]).zip
            ((muse_embedding_data
              [[((1 : ℕ), ([1] : List ℚ)), (2, [2])], [(2, [3]), (3, [4])]]).getD m []),
          p ∈ [[((1 : ℕ), ([1] : List ℚ)), (2, [2])], [(2, [3]), (3, [4])]].getD m [])) :=
  ⟨by decide, by decide,
    muse_aligned_matrices [((1 : ℕ), ([1] : List ℚ)), (2, [2])] [(2, [3]), (3, [4])]
      (by decide) (by decide)⟩

/-- C6: in a MUSE run over two modality tables (first table's identifiers
unique), with `test_subset` satisfying the `random.sample` contract for the
requested size `int(jackknife_percent * len(name_index))`: a held-out
fraction of 0 creates no side file, and a fraction greater than 0 creates
one listing exactly `floor(fraction * card(aligned identifier set))`
identifiers, all drawn from the aligned identifier set. -/
theorem muse_jackknife_side_file {ident : Type} [LinearOrder ident] [Inhabited ident]
    (t0 t1 : List (Row ident)) (p : ℚ) (test_subset : List ℕ)
    (h0 : (t0.map Prod.fst).Nodup)
    (hlen : test_subset.length
      = (⌊p * ((muse_name_index [t0, t1]).length : ℚ)⌋).toNat)
    (hidx : ∀ i ∈ test_subset, i < (muse_name_index [t0, t1]).length) :
    (p = 0 → muse_test_genes_file (muse_name_index [t0, t1]) p test_subset = none) ∧
    (0 < p → ∃ names,
        muse_test_genes_file (muse_name_index [t0, t1]) p test_subset = some names ∧
        names.length = (⌊p * ((muse_intersection_name_set [t0, t1]).card : ℚ)⌋).toNat ∧
        ∀ x ∈ names, x ∈ muse_intersection_name_set [t0, t1]) := by
  constructor
  · intro hp
    subst hp
    simp [muse_test_genes_file]
  · intro hp
    refine ⟨test_subset.map (fun i => (muse_name_index [t0, t1]).getD i default), ?_, ?_, ?_⟩
    · simp [muse_test_genes_file, hp]
    · rw [List.length_map, hlen, muse_name_index_length t0 t1 [] h0]
    · intro x hx
      obtain ⟨i, hi_mem, rfl⟩ := List.mem_map.mp hx
      rw [← muse_name_index_toFinset t0 t1 [] h0]
      exact List.mem_toFinset.mpr (getD_mem _ i default (hidx i hi_mem))

/-- Witness for `muse_jackknife_side_file` at two concrete tables with a
held-out fraction of one half. -/
theorem muse_jackknife_side_file_witness :
    (([((1 : ℕ), ([] : List ℚ)), (2, [])].map Prod.fst).Nodup) ∧
    ([0].length = (⌊((1 : ℚ)/2)
      * ((muse_name_index [[((1 : ℕ), ([] : List ℚ)), (2, [])], [(1, []), (2, [])]]).length
          : ℚ)⌋).toNat) ∧
    (∀ i ∈ [0], i
      < (muse_name_index [[((1 : ℕ), ([] : List ℚ)), (2, [])], [(1, []), (2, [])]]).length) ∧
    (((1 : ℚ)/2) = 0 → muse_test_genes_file
        (muse_name_index [[((1 : ℕ), ([] : List ℚ)), (2, [])], [(1, []), (2, [])]])
        ((1 : ℚ)/2) [0] = none) ∧
    (0 < ((1 : ℚ)/2) → ∃ names,
        muse_test_genes_file
            (muse_name_index [[((1 : ℕ), ([] : List ℚ)), (2, [])], [(1, []), (2, [])]])
            ((1 : ℚ)/2) [0] = some names ∧
        names.length = (⌊((1 : ℚ)/2)
          * ((muse_intersection_name_set
              [[((1 : ℕ), ([] : List ℚ)), (2, [])], [(1, []), (2, [])]]).card : ℚ)⌋).toNat ∧
        ∀ x ∈ names, x ∈ muse_intersection_name_set
            [[((1 : ℕ), ([] : List ℚ)), (2, [])], [(1, []), (2, [])]]) := by
  have hlen : ([0] : List ℕ).length = (⌊((1 : ℚ)/2)
      * ((muse_name_index [[((1 : ℕ), ([] : List ℚ)), (2, [])], [(1, []), (2, [])]]).length
          : ℚ)⌋).toNat := by
    have h2 : (muse_name_index
        [[((1 : ℕ), ([] : List ℚ)), (2, [])], [(1, []), (2, [])]]).length = 2 := by decide
    rw [h2]
    norm_num
  have h := muse_jackknife_side_file [((1 : ℕ), ([] : List ℚ)), (2, [])] [(1, []), (2, [])]
    ((1 : ℚ)/2) [0] (by decide) hlen (by decide)
  exact ⟨by decide, hlen, by decide, h.1, h.2⟩

/-- C7: the header row written by `CellmapsCoEmbedder.run` is an empty
first cell followed by the integer labels 1 through D-1 (where D is the
caller-requested dimensionality), and every data row written has exactly
D + 1 cells: each MUSE row is one identifier cell plus the D components of
its fitted vector (the fitter contract gives every result vector length D,
whatever each input modality's native dimensionality), and the fake
generator yields no rows at all (its body raises before its first yield),
so it writes no data row of any other length either. -/
theorem output_table_shape {ident : Type} [LinearOrder ident] [Inhabited ident] (D : ℕ)
    (ni : List ident) (res : List (List ℚ))
    (hres : ∀ v ∈ res, v.length = D) :
    header_line D = "" :: (List.range (D - 1)).map (fun i => toString (i + 1)) ∧
    (∀ r ∈ muse_emitted_rows ni res, 1 + r.2.length = D + 1) ∧
    (∀ g read rows, fake_get_next_embedding g read ≠ Except.ok rows) := by
  refine ⟨?_, ?_, ?_⟩
  · rw [header_line, List.range'_eq_map_range, List.map_map]
    refine congrArg (List.cons "") (List.map_congr_left ?_)
    intro i _
    simp [Function.comp, Nat.add_comm]
  · intro r hr
    obtain ⟨i, hi, rfl⟩ := List.mem_map.mp hr
    have hiv : i < res.length := List.mem_range.mp hi
    have hmem : res.getD i [] ∈ res := getD_mem res i [] hiv
    show 1 + (res.getD i []).length = D + 1
    rw [hres _ hmem, Nat.add_comm]
  · intro g read rows h
    exact Except.noConfusion h

/-- Witness for `output_table_shape` at D = 2 with one emitted row. -/
theorem output_table_shape_witness :
    (∀ v ∈ [[(1 : ℚ), 2]], v.length = 2) ∧
    (header_line 2 = "" :: (List.range (2 - 1)).map (fun i => toString (i + 1)) ∧
      (∀ r ∈ muse_emitted_rows [(5 : ℕ)] [[(1 : ℚ), 2]], 1 + r.2.length = 2 + 1) ∧
      (∀ g read rows, fake_get_next_embedding g read ≠ Except.ok rows)) :=
  ⟨by decide, output_table_shape 2 [(5 : ℕ)] [[(1 : ℚ), 2]] (by decide)⟩

/-- C2 (code defect): on the claim's concrete scenario (two modalities
A = gene1, gene2 and B = gene2, gene3, dimensions = 128), the fake
generator does not yield the expected single row for gene2: its body
raises `NameError` at its first statement (runner.py line 246, a list
comprehension missing its `for`), so no row at all is produced. -/
theorem fake_generator_name_error :
    fake_get_next_embedding
        ⟨128, ["ppi_dir/ppi_emd.tsv", "image_dir/image_emd.tsv"], ["PPI", "image"]⟩
        (fun p =>
          if p = "ppi_dir/ppi_emd.tsv" then
            [("gene1", [(1 : ℚ)/10, 2/10]), ("gene2", [3/10, 4/10])]
          else if p = "image_dir/image_emd.tsv" then
            [("gene2", [(5 : ℚ)/10, 6/10]), ("gene3", [7/10, 8/10])]
          else [])
      = Except.error (PyErr.nameError "name x is not defined") := rfl

/-- C5: on every run, the task-finish record is written exactly once (the
`finally` block runs on every path, also when the generator raises partway
through the write loop); the recorded status is 0 exactly when every step
of the run completed (otherwise it stays 99); and any exception during the
run is caught at the command-line top level, which then returns 2,
distinct from the success value 0. -/
theorem run_finish_bookkeeping (env : RunEnv) :
    (cellmaps_run env).finish_statuses.length = 1 ∧
    ((cellmaps_run env).finish_statuses = [0] ↔ (run_body env).isOk = true) ∧
    ((run_body env).isOk = true → cmd_main env = 0) ∧
    ((run_body env).isOk = false → cmd_main env = 2 ∧ cmd_main env ≠ 0) := by
  cases hr : run_body env with
  | ok u => simp [cellmaps_run, cmd_main, hr, Except.isOk, Except.toBool]
  | error e => simp [cellmaps_run, cmd_main, hr, Except.isOk, Except.toBool]

/-- Witness for `run_finish_bookkeeping`: a run whose generator raises
partway still writes exactly one finish record, with failure status, and
the command returns 2. -/
theorem run_finish_bookkeeping_witness :
    (cellmaps_run ⟨Except.ok (), [], some PyErr.typeError, Except.ok ()⟩).finish_statuses
        = [99] ∧
    cmd_main ⟨Except.ok (), [], some PyErr.typeError, Except.ok ()⟩ = 2 := by
  have h := run_finish_bookkeeping ⟨Except.ok (), [], some PyErr.typeError, Except.ok ()⟩
  exact ⟨by decide, (h.2.2.2 (by decide)).1⟩

/-- C3: constructing any generator with explicitly supplied embedding files
and an embedding-name list of a different length raises the configuration
error of runner.py line 75 ("Input list of embedding names does not match
number of embeddings."), and no output table file is created by the run,
since the run is never reached. -/
theorem mismatched_names_raise (fs : List String) (dims : ℕ) (fl ns : List String)
    (h : ns.length ≠ fl.length) :
    mk_embedding_generator fs dims none none (some fl) (some ns)
        = Except.error PyErr.namesCountMismatch ∧
    ∀ outdir, pipeline_written_files outdir
        (mk_embedding_generator fs dims none none (some fl) (some ns)) = [] := by
  have hmk : mk_embedding_generator fs dims none none (some fl) (some ns)
      = Except.error PyErr.namesCountMismatch := by
    simp [mk_embedding_generator, get_embedding_files_and_names, truthyStr, truthyList,
      resolve_default_names, names_count_check, h]
  refine ⟨hmk, fun outdir => ?_⟩
  rw [hmk]
  rfl

/-- Witness for `mismatched_names_raise`: 3 embedding files, 2 names. -/
theorem mismatched_names_raise_witness :
    (["n1", "n2"].length ≠ ["e1", "e2", "e3"].length) ∧
    (mk_embedding_generator [] 128 none none (some ["e1", "e2", "e3"]) (some ["n1", "n2"])
        = Except.error PyErr.namesCountMismatch ∧
      ∀ outdir, pipeline_written_files outdir
          (mk_embedding_generator [] 128 none none (some ["e1", "e2", "e3"])
            (some ["n1", "n2"])) = []) :=
  ⟨by decide, mismatched_names_raise [] 128 ["e1", "e2", "e3"] ["n1", "n2"] (by decide)⟩

/-- C4: resolving a modality file from a directory that contains neither
the conventional PPI embedding filename nor the conventional image
embedding filename raises the missing-file error of runner.py line 51. -/
theorem missing_modality_file_error (fs : List String) (d : String)
    (hp : (d ++ "/" ++ PPI_EMBEDDING_FILE) ∉ fs)
    (hi : (d ++ "/" ++ IMAGE_EMBEDDING_FILE) ∉ fs) :
    get_embedding_file_from_dirs fs (some d)
      = Except.error (PyErr.embeddingFileNotFound d) := by
  simp [get_embedding_file_from_dirs, hp, hi]

/-- Witness for `missing_modality_file_error` at an empty file system. -/
theorem missing_modality_file_error_witness :
    (("mydir" ++ "/" ++ PPI_EMBEDDING_FILE) ∉ ([] : List String)) ∧
    (("mydir" ++ "/" ++ IMAGE_EMBEDDING_FILE) ∉ ([] : List String)) ∧
    get_embedding_file_from_dirs [] (some "mydir")
      = Except.error (PyErr.embeddingFileNotFound "mydir") :=
  ⟨by decide, by decide, missing_modality_file_error [] "mydir" (by decide) (by decide)⟩

/-- C9: supplying exactly one of the two directory arguments (and no
explicit embedding files) never produces the "use either directories or
embeddings, not both" configuration error nor the name-count configuration
error: construction still fails, but with a `TypeError` (from
`os.path.join(None, ...)` on the missing directory) or with the
missing-file error for the supplied directory. -/
theorem single_directory_falls_through (fs : List String) (dims : ℕ) (d : String)
    (files names : Option (List String)) (hd : d ≠ "") (hf : truthyList files = false)
    (b : Bool) :
    ∃ e, mk_embedding_generator fs dims (if b then some d else none)
          (if b then none else some d) files names = Except.error e ∧
      e ≠ PyErr.notBothDirsAndFiles ∧ e ≠ PyErr.namesCountMismatch ∧
      (e = PyErr.typeError ∨ e = PyErr.embeddingFileNotFound d) := by
  have hd' : truthyStr (some d) = true := by
    simp [truthyStr, hd]
  cases b with
  | false =>
    refine ⟨PyErr.typeError, ?_, by simp, by simp, Or.inl rfl⟩
    simp [mk_embedding_generator, get_embedding_files_and_names, truthyStr, hd, hd', hf,
      get_embedding_file_from_dirs]
  | true =>
    by_cases hp : (d ++ "/" ++ PPI_EMBEDDING_FILE) ∈ fs
    · refine ⟨PyErr.typeError, ?_, by simp, by simp, Or.inl rfl⟩
      simp [mk_embedding_generator, get_embedding_files_and_names, hd', hf,
        get_embedding_file_from_dirs, hp]
    · by_cases hi : (d ++ "/" ++ IMAGE_EMBEDDING_FILE) ∈ fs
      · refine ⟨PyErr.typeError, ?_, by simp, by simp, Or.inl rfl⟩
        simp [mk_embedding_generator, get_embedding_files_and_names, hd', hf,
          get_embedding_file_from_dirs, hp, hi]
      · refine ⟨PyErr.embeddingFileNotFound d, ?_, by simp, by simp, Or.inr rfl⟩
        simp [mk_embedding_generator, get_embedding_files_and_names, hd', hf,
          get_embedding_file_from_dirs, hp, hi]

/-- Witness for `single_directory_falls_through`: only the PPI directory is
given, against an empty file system. -/
theorem single_directory_falls_through_witness :
    ("mydir" : String) ≠ "" ∧ truthyList (none : Option (List String)) = false ∧
    (∃ e, mk_embedding_generator [] 128 (some "mydir") none none none = Except.error e ∧
      e ≠ PyErr.notBothDirsAndFiles ∧ e ≠ PyErr.namesCountMismatch ∧
      (e = PyErr.typeError ∨ e = PyErr.embeddingFileNotFound "mydir")) := by
  refine ⟨by decide, rfl, ?_⟩
  have h := single_directory_falls_through [] 128 "mydir" none none (by decide) rfl true
  simpa using h

/-- C10: constructing a generator from both embedding directories while
also passing a non-None list of embedding names always fails: the
directory branch leaves the local name list empty whenever
`embedding_names` is not `None` (runner.py lines 57, 66-67), so when both
directories resolve the name/file count check compares 0 names against 2
files and raises — even when exactly two names were supplied, matching the
two discovered files; when a directory fails to resolve, that resolution
error is raised instead. -/
theorem dirs_with_names_always_raise (fs : List String) (dims : ℕ) (d1 d2 : String)
    (files : Option (List String)) (ns : List String)
    (h1 : d1 ≠ "") (hf : truthyList files = false) :
    (∃ e, mk_embedding_generator fs dims (some d1) (some d2) files (some ns)
        = Except.error e) ∧
    (∀ f1 f2, get_embedding_file_from_dirs fs (some d1) = Except.ok f1 →
        get_embedding_file_from_dirs fs (some d2) = Except.ok f2 →
        mk_embedding_generator fs dims (some d1) (some d2) files (some ns)
          = Except.error PyErr.namesCountMismatch) := by
  have hd1 : truthyStr (some d1) = true := by
    simp [truthyStr, h1]
  constructor
  · cases hr1 : get_embedding_file_from_dirs fs (some d1) with
    | error e =>
      exact ⟨e, by simp [mk_embedding_generator, get_embedding_files_and_names, hd1, hf, hr1]⟩
    | ok f1 =>
      cases hr2 : get_embedding_file_from_dirs fs (some d2) with
      | error e =>
        exact ⟨e, by simp [mk_embedding_generator, get_embedding_files_and_names, hd1, hf,
          hr1, hr2]⟩
      | ok f2 =>
        exact ⟨PyErr.namesCountMismatch,
          by simp [mk_embedding_generator, get_embedding_files_and_names, hd1, hf, hr1, hr2,
            resolve_default_names, names_count_check]⟩
  · intro f1 f2 hr1 hr2
    simp [mk_embedding_generator, get_embedding_files_and_names, hd1, hf, hr1, hr2,
      resolve_default_names, names_count_check]

/-- Witness for `dirs_with_names_always_raise`: both directories resolve and
exactly two names matching the two discovered files are supplied, yet
construction raises the name-count configuration error. -/
theorem dirs_with_names_always_raise_witness :
    ("pd" : String) ≠ "" ∧ truthyList (none : Option (List String)) = false ∧
    get_embedding_file_from_dirs ["pd/ppi_emd.tsv", "id/image_emd.tsv"] (some "pd")
        = Except.ok "pd/ppi_emd.tsv" ∧
    get_embedding_file_from_dirs ["pd/ppi_emd.tsv", "id/image_emd.tsv"] (some "id")
        = Except.ok "id/image_emd.tsv" ∧
    mk_embedding_generator ["pd/ppi_emd.tsv", "id/image_emd.tsv"] 128 (some "pd") (some "id")
        none (some ["PPI", "image"]) = Except.error PyErr.namesCountMismatch := by
  have h := dirs_with_names_always_raise ["pd/ppi_emd.tsv", "id/image_emd.tsv"] 128 "pd" "id"
    none ["PPI", "image"] (by decide) rfl
  exact ⟨by decide, rfl, rfl, rfl,
    h.2 "pd/ppi_emd.tsv" "id/image_emd.tsv" rfl rfl⟩
